import Mathlib

/-!
Shallow embedding of `src/body.rs` from the `http-types` repository: the
streaming HTTP `Body` type, its constructors, metadata accessors,
materialization operations, `From` conversions, `Debug` rendering, and the
`Read`/`BufRead` forwarding implementations. Bytes are modelled as `Nat`
values, byte buffers and Rust `String`s as `List Nat` (a `String` is its
UTF-8 byte sequence), and the type-erased boxed reader as the list of
bytes the backing cursor has not yet yielded — all in-memory sources in
`body.rs` are `io::Cursor`/`io::empty`, whose reads always complete with
`Ok`.
-/

/-- Modelled from the spec: the content-type fallback label registry
(`mime::BYTE_STREAM`, `mime::PLAIN`, `mime::JSON`) lives in the
repository's mime module, outside the provided source file; the spec
describes it as three distinct fallback labels — generic binary,
plain-text, and structured-data (JSON). -/
inductive Mime where
  | byteStream
  | plain
  | json

/-- An `io::Error` as `body.rs` produces it: `read_to_string` fails with
`InvalidData` when the drained bytes are not valid UTF-8, and
`into_json` converts the parse error of the deserializer into an
`io::Error` via `io::Error::from`. `π` is the parse-error type of the
injected deserialization capability. -/
inductive IOError (π : Type) where
  | invalidUtf8
  | parse (e : π)

/-- The crate-level error (`crate::Error`) as `body.rs` uses it: either a
serialization failure propagated by the question-mark operator in
`from_json`, or an `io::Error` from a materialization operation. `σ` is
the error type of the injected serialization capability. -/
inductive HError (σ π : Type) where
  | encoding (e : σ)
  | ioError (e : IOError π)

/-- The `Body` struct: a type-erased boxed `BufRead` reader (embedded as
the bytes the cursor has not yet yielded), a mime label and an optional
declared length. -/
structure Body where
  reader : List Nat
  mime : Mime
  length : Option Nat

/-- `Body::empty` — an `io::empty()` reader, `mime::BYTE_STREAM`, and
`length: Some(0)`. -/
def Body.empty : Body :=
  { reader := [], mime := Mime.byteStream, length := some 0 }

/-- `Body::from_reader` — wraps a reader together with a caller-supplied
optional length, taken on faith; `mime::BYTE_STREAM`. -/
def Body.from_reader (reader : List Nat) (len : Option Nat) : Body :=
  { reader := reader, mime := Mime.byteStream, length := len }

/-- `Body::from_bytes` — a cursor over the byte vector,
`length: Some(bytes.len())`, `mime::BYTE_STREAM`. -/
def Body.from_bytes (bytes : List Nat) : Body :=
  { mime := Mime.byteStream, length := some bytes.length, reader := bytes }

/-- `Body::from_json` — `serde_json::to_vec(&json)` is the injected
serialization capability; it is embedded by its result `ser`: on error
the question-mark operator propagates the serialization failure before
any `Body` value is built, on success the body wraps a cursor over the
encoded bytes with `length: Some(bytes.len())` and `mime::JSON`. -/
def Body.from_json {σ π : Type} (ser : Except σ (List Nat)) : Except (HError σ π) Body :=
  match ser with
  | Except.error e => Except.error (HError.encoding e)
  | Except.ok bytes =>
      Except.ok { length := some bytes.length, reader := bytes, mime := Mime.json }

/-- `Body::len` — returns the `length` field as recorded. -/
def Body.len (b : Body) : Option Nat := b.length

/-- `Body::is_empty` — `self.length.map(|length| length == 0)`. -/
def Body.is_empty (b : Body) : Option Bool := b.length.map (fun l => l == 0)

/-- `impl Read for Body::poll_read` — delegates to the inner reader; a
cursor read copies at most `n` bytes (the caller's buffer size) from the
front and advances past them, always completing with `Ready(Ok)`. -/
def Body.pollRead {π : Type} (b : Body) (n : Nat) : Except (IOError π) (List Nat × Body) :=
  Except.ok (b.reader.take n, { b with reader := b.reader.drop n })

/-- `impl BufRead for Body::poll_fill_buf` — exposes the cursor's
remaining bytes without consuming them; the body is unchanged. -/
def Body.fillBuf (b : Body) : List Nat := b.reader

/-- `impl BufRead for Body::consume` — advances the inner cursor past
`amt` bytes. -/
def Body.consume (b : Body) (amt : Nat) : Body :=
  { b with reader := b.reader.drop amt }

/-- The `read_to_end` drain loop: repeated reads against the cursor until
a read returns zero bytes, accumulating into the buffer; each read
yields up to a chunk of the remaining bytes. -/
def drainLoop : List Nat → List Nat → List Nat
  | [], acc => acc
  | x :: xs, acc => drainLoop ((x :: xs).drop 1024) (acc ++ (x :: xs).take 1024)
termination_by r _ => r.length
decreasing_by simp [List.length_drop]; omega

/-- `Body::into_bytes` — `Vec::with_capacity(1024)` then
`read_to_end`; cursor reads cannot fail, so the drain collects every
remaining byte and returns `Ok`. -/
def Body.into_bytes {σ π : Type} (b : Body) : Except (HError σ π) (List Nat) :=
  Except.ok (drainLoop b.reader [])

/-- Byte in the UTF-8 continuation range `0x80..=0xBF`. -/
def isCont (b : Nat) : Bool := 0x80 ≤ b && b ≤ 0xBF

/-- UTF-8 validity of a byte sequence, as `read_to_string` enforces it
(Rust's standard library validation, including the overlong and
surrogate exclusions). -/
def validUtf8 : List Nat → Bool
  | [] => true
  | b :: rest =>
    if b ≤ 0x7F then validUtf8 rest
    else if 0xC2 ≤ b && b ≤ 0xDF then
      match rest with
      | b1 :: r => isCont b1 && validUtf8 r
      | [] => false
    else if 0xE0 ≤ b && b ≤ 0xEF then
      match rest with
      | b1 :: b2 :: r =>
        (if b = 0xE0 then 0xA0 ≤ b1 && b1 ≤ 0xBF
         else if b = 0xED then 0x80 ≤ b1 && b1 ≤ 0x9F
         else isCont b1) && isCont b2 && validUtf8 r
      | _ => false
    else if 0xF0 ≤ b && b ≤ 0xF4 then
      match rest with
      | b1 :: b2 :: b3 :: r =>
        (if b = 0xF0 then 0x90 ≤ b1 && b1 ≤ 0xBF
         else if b = 0xF4 then 0x80 ≤ b1 && b1 ≤ 0x8F
         else isCont b1) && isCont b2 && isCont b3 && validUtf8 r
      | _ => false
    else false

/-- `Body::into_string` — `String::with_capacity(self.len().unwrap_or(0))`
then `read_to_string`: drains the reader and requires the bytes to be
valid UTF-8, failing with `InvalidData` otherwise. The resulting Rust
`String` is embedded as its UTF-8 byte list. -/
def Body.into_string {π : Type} (b : Body) : Except (IOError π) (List Nat) :=
  let bytes := drainLoop b.reader []
  if validUtf8 bytes then Except.ok bytes else Except.error IOError.invalidUtf8

/-- The initial buffer capacity `into_string` requests:
`self.len().unwrap_or(0)`. -/
def Body.intoStringCapacity (b : Body) : Nat := (Body.len b).getD 0

/-- `Body::into_json` — `read_to_end` then `serde_json::from_slice` (the
injected deserialization capability, passed as `decode`); a parse error
is wrapped by `io::Error::from` and then by the question-mark operator
into the crate error. -/
def Body.into_json {T σ π : Type} (decode : List Nat → Except π T) (b : Body) :
    Except (HError σ π) T :=
  match decode (drainLoop b.reader []) with
  | Except.ok v => Except.ok v
  | Except.error e => Except.error (HError.ioError (IOError.parse e))

/-- `Body::into_reader` — reclaims the inner reader without draining. -/
def Body.into_reader (b : Body) : List Nat := b.reader

/-- Rendering of an `Option<usize>` as Rust's `Debug` prints it. -/
def optionNatRepr : Option Nat → String
  | some n => "Some(" ++ toString n ++ ")"
  | none => "None"

/-- `impl Debug for Body` — `debug_struct("Body")` with the `reader`
field rendered as the literal `"<hidden>"` and the `length` field as the
declared length. -/
def Body.debugFmt (b : Body) : String :=
  "Body \x7b reader: \"<hidden>\", length: " ++ optionNatRepr b.length ++ " \x7d"

/-- `impl From<String> for Body` — `length: Some(s.len())`, a cursor over
`s.into_bytes()`, `mime::PLAIN`. -/
def Body.fromString (s : List Nat) : Body :=
  { length := some s.length, reader := s, mime := Mime.plain }

/-- `impl From<&str> for Body` — `s.to_owned().into_bytes()` clones the
same byte sequence; `length: Some(s.len())`, `mime::PLAIN`. -/
def Body.fromStr (s : List Nat) : Body :=
  { length := some s.length, reader := s, mime := Mime.plain }

/-- `impl From<Vec<u8>> for Body` — `length: Some(b.len())`, a cursor
over the vector, `mime::BYTE_STREAM`. -/
def Body.fromVec (b : List Nat) : Body :=
  { length := some b.length, reader := b, mime := Mime.byteStream }

/-- `impl From<&[u8]> for Body` — `b.to_owned()` clones the same bytes;
`length: Some(b.len())`, `mime::BYTE_STREAM`. -/
def Body.fromSlice (b : List Nat) : Body :=
  { length := some b.length, reader := b, mime := Mime.byteStream }

/-- One operation of the buffered streaming contract as implemented by
`impl Read for Body` and `impl BufRead for Body`. -/
inductive Op where
  | read (n : Nat)
  | fillBuf
  | consume (n : Nat)

/-- The state transition each contract operation performs on the body:
`poll_read` and `consume` advance the inner cursor, `poll_fill_buf` only
peeks; none of them touches the `mime` or `length` fields. -/
def Body.applyOp (b : Body) (op : Op) : Body :=
  match op with
  | Op.read n =>
      match Body.pollRead (π := Unit) b n with
      | Except.ok (_, b2) => b2
      | Except.error _ => b
  | Op.fillBuf => b
  | Op.consume n => Body.consume b n

/-- A sequence of contract operations applied in order. -/
def Body.applyOps (b : Body) (ops : List Op) : Body :=
  ops.foldl Body.applyOp b

/-- The drain loop returns the accumulator followed by every remaining
byte of the cursor, in order. -/
theorem drainLoop_eq (r acc : List Nat) : drainLoop r acc = acc ++ r := by
  induction r, acc using drainLoop.induct with
  | case1 acc => simp [drainLoop]
  | case2 x xs acc ih =>
      rw [drainLoop, ih]
      simp

/-- No contract operation changes the `length` field. -/
theorem Body.applyOp_length (b : Body) (op : Op) :
    (Body.applyOp b op).length = b.length := by
  cases op <;> rfl

/-- No sequence of contract operations changes the `length` field. -/
theorem Body.applyOps_length (b : Body) (ops : List Op) :
    (Body.applyOps b ops).length = b.length := by
  induction ops generalizing b with
  | nil => rfl
  | cons op ops ih =>
      show (Body.applyOps (Body.applyOp b op) ops).length = b.length
      rw [ih, Body.applyOp_length]

/-- C1: for every byte vector `b` of length `N`, `Body::from_bytes(b)`
reports `len() == Some(N)`, and `into_bytes()` returns exactly the
original `N` bytes in order, without error. -/
theorem c1_from_bytes_roundtrip (bytes : List Nat) :
    Body.len (Body.from_bytes bytes) = some bytes.length ∧
    Body.into_bytes (σ := Unit) (π := Unit) (Body.from_bytes bytes) = Except.ok bytes := by
  refine ⟨rfl, ?_⟩
  simp [Body.into_bytes, Body.from_bytes, drainLoop_eq]

/-- C2: a body built via `From<String>` carries the plain-text fallback
mime, and `into_string` returns exactly the original string (a Rust
`String` is valid UTF-8 by construction). -/
theorem c2_from_string_into_string (s : List Nat) (h : validUtf8 s = true) :
    (Body.fromString s).mime = Mime.plain ∧
    Body.into_string (π := Unit) (Body.fromString s) = Except.ok s := by
  refine ⟨rfl, ?_⟩
  simp [Body.into_string, Body.fromString, drainLoop_eq, h]

/-- Witness for C2 at the spec's example `"Hello Nori"` (its UTF-8
bytes). -/
theorem c2_witness :
    (Body.fromString [72, 101, 108, 108, 111, 32, 78, 111, 114, 105]).mime = Mime.plain ∧
    Body.into_string (π := Unit)
        (Body.fromString [72, 101, 108, 108, 111, 32, 78, 111, 114, 105]) =
      Except.ok [72, 101, 108, 108, 111, 32, 78, 111, 114, 105] :=
  c2_from_string_into_string [72, 101, 108, 108, 111, 32, 78, 111, 114, 105] (by decide)

/-- C3: when the injected serializer succeeds on `v`, `from_json` yields a
body with the JSON fallback mime and declared length equal to the encoded
byte size, and `into_json` with a decoder that inverts the encoder on
those bytes (a matching schema type) reproduces the original value. -/
theorem c3_from_json_roundtrip {T σ π : Type} (v : T)
    (encode : T → Except σ (List Nat)) (decode : List Nat → Except π T)
    (bytes : List Nat) (henc : encode v = Except.ok bytes)
    (hdec : decode bytes = Except.ok v) :
    Body.from_json (π := π) (encode v) =
      Except.ok { reader := bytes, mime := Mime.json, length := some bytes.length } ∧
    Body.into_json (σ := σ) decode
      { reader := bytes, mime := Mime.json, length := some bytes.length } = Except.ok v := by
  constructor
  · rw [henc]
    rfl
  · simp only [Body.into_json, drainLoop_eq, List.nil_append, hdec]

/-- Witness for C3 with a concrete value and an inverse encoder/decoder
pair. -/
theorem c3_witness :
    Body.from_json (π := Unit)
        ((fun v => (Except.ok v : Except Unit (List Nat))) [1, 2, 3]) =
      Except.ok { reader := [1, 2, 3], mime := Mime.json, length := some 3 } ∧
    Body.into_json (σ := Unit) (fun bs => (Except.ok bs : Except Unit (List Nat)))
        { reader := [1, 2, 3], mime := Mime.json, length := some 3 } =
      Except.ok [1, 2, 3] :=
  c3_from_json_roundtrip [1, 2, 3]
    (fun v => (Except.ok v : Except Unit (List Nat)))
    (fun bs => (Except.ok bs : Except Unit (List Nat)))
    [1, 2, 3] rfl rfl

/-- C4: `into_string` fails with the typed `InvalidData` error when the
drained bytes are not valid UTF-8; `into_json` wraps a parse error from
the decoder through the io layer into the crate error (never a panic —
both are ordinary `Except` results); and `into_string` pre-sizes its
buffer from the declared length when it is known. -/
theorem c4_decoding_errors {T π : Type} (b : Body)
    (decode : List Nat → Except π T) (e : π) (n : Nat) :
    (validUtf8 (drainLoop b.reader []) = false →
      Body.into_string (π := π) b = Except.error IOError.invalidUtf8) ∧
    (decode (drainLoop b.reader []) = Except.error e →
      Body.into_json (σ := Unit) decode b = Except.error (HError.ioError (IOError.parse e))) ∧
    (Body.len b = some n → Body.intoStringCapacity b = n) := by
  refine ⟨fun h => ?_, fun h => ?_, fun h => ?_⟩
  · simp [Body.into_string, h]
  · simp only [Body.into_json, h]
  · simp [Body.intoStringCapacity, h]

/-- Witness for C4 at the body over the single invalid byte `0xFF` and an
always-failing decoder. -/
theorem c4_witness :
    Body.into_string (π := Unit) (Body.from_bytes [255]) =
      Except.error IOError.invalidUtf8 ∧
    Body.into_json (σ := Unit) (fun _ => (Except.error () : Except Unit (List Nat)))
        (Body.from_bytes [255]) =
      Except.error (HError.ioError (IOError.parse ())) ∧
    Body.intoStringCapacity (Body.from_bytes [255]) = 1 := by
  refine ⟨?_, ?_, ?_⟩
  · exact (c4_decoding_errors (Body.from_bytes [255])
      (fun _ => (Except.error () : Except Unit (List Nat))) () 1).1
      (by rw [drainLoop_eq]; decide)
  · exact (c4_decoding_errors (Body.from_bytes [255])
      (fun _ => (Except.error () : Except Unit (List Nat))) () 1).2.1 rfl
  · exact (c4_decoding_errors (Body.from_bytes [255])
      (fun _ => (Except.error () : Except Unit (List Nat))) () 1).2.2 rfl

/-- C5: when the injected serializer fails, `from_json` returns the
Encoding error and no body value is constructed — the result is the
`error` branch of the `Except`, which holds no `Body`. -/
theorem c5_from_json_encoding_error {σ π : Type} (e : σ) :
    Body.from_json (π := π) (Except.error e) = Except.error (HError.encoding e) :=
  rfl

/-- C6: `len()` returns the declared length recorded at construction; it
is unchanged by any sequence of read / fill-buffer / consume operations;
and it depends only on the `length` field, never on the remaining bytes
in the source. -/
theorem c6_len_frame (b : Body) (ops : List Op) :
    Body.len (Body.applyOps b ops) = Body.len b ∧
    Body.len b = b.length ∧
    (∀ b2 : Body, b.length = b2.length → Body.len b = Body.len b2) := by
  refine ⟨?_, rfl, fun b2 h => h⟩
  show (Body.applyOps b ops).length = b.length
  exact Body.applyOps_length b ops

/-- Witness for C6: a concrete operation sequence on `from_bytes [1,2,3]`
leaves `len()` at `Some(3)`, and a body with the same declared length but
different source bytes reports the same `len()`. -/
theorem c6_witness :
    Body.len (Body.applyOps (Body.from_bytes [1, 2, 3])
        [Op.read 2, Op.fillBuf, Op.consume 1]) =
      Body.len (Body.from_bytes [1, 2, 3]) ∧
    Body.len (Body.from_bytes [1, 2, 3]) = Body.len (Body.from_reader [9, 9, 9, 9] (some 3)) :=
  ⟨(c6_len_frame (Body.from_bytes [1, 2, 3]) [Op.read 2, Op.fillBuf, Op.consume 1]).1,
   (c6_len_frame (Body.from_bytes [1, 2, 3]) []).2.2
     (Body.from_reader [9, 9, 9, 9] (some 3)) rfl⟩

/-- C7: once the source is exhausted, `poll_read` returns `Ok` with zero
bytes and leaves the body unchanged, so every further read again returns
zero bytes — repeatedly and never an error. -/
theorem c7_eof_idempotent {π : Type} (b : Body) (n : Nat) (h : b.reader = []) :
    Body.pollRead (π := π) b n = Except.ok ([], b) := by
  obtain ⟨r, m, l⟩ := b
  simp only at h
  subst h
  simp [Body.pollRead]

/-- Witness for C7 at the exhausted body `empty()` with a 16-byte
buffer. -/
theorem c7_witness :
    Body.pollRead (π := Unit) Body.empty 16 = Except.ok ([], Body.empty) :=
  c7_eof_idempotent Body.empty 16 rfl

/-- C8: `empty()` has `len() == Some(0)`, `is_empty() == Some(true)` and
`into_bytes()` yields zero bytes; and in general `is_empty()` is
`Some(true)` iff the declared length is `Some(0)`, `Some(false)` when it
is `Some(n)` with `n > 0`, and `None` when the length is unknown. -/
theorem c8_empty_and_is_empty :
    Body.len Body.empty = some 0 ∧
    Body.is_empty Body.empty = some true ∧
    Body.into_bytes (σ := Unit) (π := Unit) Body.empty = Except.ok [] ∧
    (∀ b : Body,
      (Body.is_empty b = some true ↔ b.length = some 0) ∧
      (∀ n : Nat, b.length = some n → 0 < n → Body.is_empty b = some false) ∧
      (b.length = none → Body.is_empty b = none)) := by
  refine ⟨rfl, rfl, ?_, fun b => ⟨?_, fun n hn hpos => ?_, fun h => ?_⟩⟩
  · simp [Body.into_bytes, Body.empty, drainLoop_eq]
  · cases h : b.length with
    | none => simp [Body.is_empty, h]
    | some l => simp [Body.is_empty, h]
  · simp [Body.is_empty, hn]
    omega
  · simp [Body.is_empty, h]

/-- Witness for C8 at bodies with declared length `Some(2)` and unknown
length. -/
theorem c8_witness :
    Body.is_empty (Body.from_reader [7] (some 2)) = some false ∧
    Body.is_empty (Body.from_reader [7] none) = none :=
  ⟨(c8_empty_and_is_empty.2.2.2 (Body.from_reader [7] (some 2))).2.1 2 rfl (by decide),
   (c8_empty_and_is_empty.2.2.2 (Body.from_reader [7] none)).2.2 rfl⟩

/-- C9: the Debug rendering prints the literal `"<hidden>"` for the
reader and only the declared length, so two bodies with equal declared
length but different source bytes render identically. -/
theorem c9_debug_hides_contents (a b : Body) (h : a.length = b.length) :
    Body.debugFmt a = Body.debugFmt b := by
  simp [Body.debugFmt, h]

/-- Witness for C9: bodies over `[1,2,3]` and `[4,5,6]` share the same
debug output. -/
theorem c9_witness :
    Body.debugFmt (Body.from_bytes [1, 2, 3]) = Body.debugFmt (Body.from_bytes [4, 5, 6]) :=
  c9_debug_hides_contents (Body.from_bytes [1, 2, 3]) (Body.from_bytes [4, 5, 6]) rfl

/-- C10: `From<String>` and `From<&str>` produce equal bodies (hence the
same declared length, mime and `into_bytes` result), and likewise
`From<Vec<u8>>`, `From<&[u8]>` and `from_bytes` produce equal bodies. -/
theorem c10_conversions_agree (s b : List Nat) :
    Body.fromString s = Body.fromStr s ∧
    Body.fromVec b = Body.fromSlice b ∧
    Body.fromVec b = Body.from_bytes b ∧
    Body.into_bytes (σ := Unit) (π := Unit) (Body.fromString s) =
      Body.into_bytes (σ := Unit) (π := Unit) (Body.fromStr s) ∧
    Body.into_bytes (σ := Unit) (π := Unit) (Body.fromVec b) =
      Body.into_bytes (σ := Unit) (π := Unit) (Body.from_bytes b) :=
  ⟨rfl, rfl, rfl, rfl, rfl⟩
